import Mathlib

/-!
A verification development for the go_bank repository: a shallow embedding,
in Lean 4, of the Account Store (storage.go) and the Request Handler
(api.go), together with theorems about the claimed properties.

Modelling conventions:
* The persistent account table is a `List Account` (rows in insertion order;
  the schema declares id SERIAL PRIMARY KEY and number BIGINT UNIQUE).
* Go float64 balances and amounts are embedded as exact rationals `Rat`;
  Go int64 ids and account numbers as `Int`; timestamps as `Int` (an
  abstract clock value passed in for CURRENT_TIMESTAMP and time.Now).
* Each store operation that runs inside a transaction returns the state
  after the transaction: on any error the Go code rolls the transaction
  back (the deferred Rollback in TransferMoney), so the error branches
  return the table unchanged.
* TransferMoney additionally returns the list of account numbers it issued
  SELECT ... FOR UPDATE queries for, in order: the row-lock acquisition
  trace of the execution.
-/

/-- One row of the account table (types.go `Account`). -/
structure Account where
  id : Int
  firstName : String
  lastName : String
  number : Int
  balance : Rat
  createdAt : Int
  updatedAt : Int
deriving DecidableEq

/-- Errors returned by the store layer: `sql.ErrNoRows` from a QueryRow
scan (notFound), the explicit insufficient-funds error in TransferMoney,
and the rows-affected check in UpdateAccountBalance. -/
inductive StoreErr where
  | notFound
  | insufficientFunds
  | noRowsUpdated
deriving DecidableEq

/-- HTTP response statuses the handlers in api.go produce. -/
inductive HStatus where
  | ok
  | created
  | badRequest
  | notFound
  | internalError
deriving DecidableEq

/-- types.go `NewAccount`: fresh account with zero balance.  The random
account number (rand.Int63n) is passed in as a parameter, and time.Now
as the clock value. -/
def NewAccount (firstName lastName : String) (number : Int) (now : Int) : Account :=
  { id := 0
    firstName := firstName
    lastName := lastName
    number := number
    balance := 0
    createdAt := now
    updatedAt := now }

/-- storage.go `CreateAccount`: INSERT the row; the SERIAL column assigns
the new id, modelled as a parameter; RETURNING id gives it back. -/
def CreateAccount (db : List Account) (account : Account) (newId : Int) :
    Int × List Account :=
  (newId, db ++ [{ account with id := newId }])

/-- storage.go `GetAccountByID`: SELECT ... WHERE id = $1 LIMIT 1, or
nil (modelled none) when no row matches. -/
def GetAccountByID (db : List Account) (id : Int) : Option Account :=
  db.find? (fun a => a.id == id)

/-- storage.go `DeleteAccount`: SELECT id WHERE id = $1; if no row, return
(0, nil error); otherwise DELETE the row and return its id. -/
def DeleteAccount (db : List Account) (id : Int) : Int × List Account :=
  if db.any (fun a => a.id == id) then
    (id, db.filter (fun a => !(a.id == id)))
  else
    (0, db)

/-- storage.go `UpdateAccountBalance`: UPDATE ... SET balance, updated_at
WHERE id = $3 AND number = $4; if RowsAffected = 0 the store errors and no
row changed.  (The preliminary `SELECT id` existence check in the Go code
cannot fail on an empty result — db.Query does not return sql.ErrNoRows —
so it is behaviourally a no-op and not modelled.) -/
def UpdateAccountBalance (db : List Account) (id : Int) (account : Account)
    (now : Int) : (Except StoreErr Int) × List Account :=
  if db.any (fun a => a.id == id && a.number == account.number) then
    (Except.ok id,
     db.map (fun a =>
       if a.id == id && a.number == account.number then
         { a with balance := account.balance, updatedAt := now }
       else a))
  else
    (Except.error StoreErr.noRowsUpdated, db)

/-- UPDATE account SET balance = $1, updated_at = CURRENT_TIMESTAMP
WHERE number = $2 — the write statement TransferMoney issues twice. -/
def updateBalanceByNumber (db : List Account) (n : Int) (b : Rat) (now : Int) :
    List Account :=
  db.map (fun a => if a.number == n then { a with balance := b, updatedAt := now } else a)

/-- storage.go `TransferMoney`.  Returns (error?, table after the
transaction, lock trace).  The Go code begins a transaction, reads the
source balance FOR UPDATE (sql.ErrNoRows when absent), errors with
"insufficient funds" when fromBalance < amount, reads the destination
balance FOR UPDATE, then writes both new balances; the deferred
Rollback/Commit means error branches leave the table unchanged.  The
third component lists the numbers queried FOR UPDATE, in order. -/
def TransferMoney (db : List Account) (fromAccountNo toAccountNo : Int)
    (amount : Rat) (now : Int) : Option StoreErr × List Account × List Int :=
  match db.find? (fun a => a.number == fromAccountNo) with
  | none => (some StoreErr.notFound, db, [fromAccountNo])
  | some fromAcc =>
    if fromAcc.balance < amount then
      (some StoreErr.insufficientFunds, db, [fromAccountNo])
    else
      match db.find? (fun a => a.number == toAccountNo) with
      | none => (some StoreErr.notFound, db, [fromAccountNo, toAccountNo])
      | some toAcc =>
        let newFromBalance := fromAcc.balance - amount
        let newToBalance := toAcc.balance + amount
        let db1 := updateBalanceByNumber db fromAccountNo newFromBalance now
        let db2 := updateBalanceByNumber db1 toAccountNo newToBalance now
        (none, db2, [fromAccountNo, toAccountNo])

/-- storage.go `GetAccounts`: SELECT every row ORDER BY id ASC.  The SQL
query has no LIMIT clause, so the full sorted table is returned. -/
def GetAccounts (db : List Account) : List Account :=
  List.insertionSort (fun a b => a.id ≤ b.id) db

/-- The balance the store reports for account number `n`: the balance
column of the row SELECTed by number, 0 when no row matches. -/
def balanceOf (db : List Account) (n : Int) : Rat :=
  match db.find? (fun a => a.number == n) with
  | some a => a.balance
  | none => 0

/-- Every balance in the table is non-negative. -/
def NonNeg (db : List Account) : Prop :=
  ∀ a ∈ db, 0 ≤ a.balance

instance (db : List Account) : Decidable (NonNeg db) := by
  unfold NonNeg; infer_instance

/-- Body of POST /transfer (types.go `TransferRequest`). -/
structure TransferRequest where
  fromAccountNo : Int
  toAccountNo : Int
  amount : Rat
deriving DecidableEq

/-- Body of PUT /account/:id (types.go `UpdateAccountBalanceRequest`). -/
structure UpdateAccountBalanceRequest where
  balance : Rat
  number : Int
deriving DecidableEq

/-- Body of POST /account (types.go `CreateAccountRequest`). -/
structure CreateAccountRequest where
  firstName : String
  lastName : String
deriving DecidableEq

/-- api.go `handleTransfer`: rejects fromAccountNo == toAccountNo, then
amount <= 0, both with 400; otherwise calls the store, mapping any store
error to 500 "failed to transfer funds" and success to 200. -/
def handleTransfer (db : List Account) (req : TransferRequest) (now : Int) :
    (HStatus × String) × List Account :=
  if req.fromAccountNo == req.toAccountNo then
    ((HStatus.badRequest, "cannot transfer to the same account"), db)
  else if req.amount ≤ 0 then
    ((HStatus.badRequest, "amount must be greater than zero"), db)
  else
    match TransferMoney db req.fromAccountNo req.toAccountNo req.amount now with
    | (some _, db2, _) => ((HStatus.internalError, "failed to transfer funds"), db2)
    | (none, db2, _) => ((HStatus.ok, "transfer successful"), db2)

/-- api.go `handleUpdateAccountBalance`: rejects balance < 0 and
number <= 0 with 400, a missing account (GetAccountByID nil) with 404,
maps a store error to 500, an updated id of 0 to 404, success to 200. -/
def handleUpdateAccountBalance (db : List Account) (id : Int)
    (req : UpdateAccountBalanceRequest) (now : Int) :
    (HStatus × String) × List Account :=
  if req.balance < 0 then
    ((HStatus.badRequest, "balance cannot be negative"), db)
  else if req.number ≤ 0 then
    ((HStatus.badRequest, "invalid account number"), db)
  else
    match GetAccountByID db id with
    | none => ((HStatus.notFound, "account not found"), db)
    | some _ =>
      let account : Account :=
        { id := id, firstName := "", lastName := "", number := req.number
          balance := req.balance, createdAt := 0, updatedAt := 0 }
      match UpdateAccountBalance db id account now with
      | (Except.error _, db2) => ((HStatus.internalError, "failed to update account"), db2)
      | (Except.ok updatedID, db2) =>
        if updatedID == 0 then ((HStatus.notFound, "account not found"), db2)
        else ((HStatus.ok, "updated"), db2)

/-- api.go `handleDeleteAccount`: a deleted id of 0 from the store means
no row matched and maps to 404; otherwise 200 with the id. -/
def handleDeleteAccount (db : List Account) (id : Int) :
    (HStatus × Int) × List Account :=
  let r := DeleteAccount db id
  if r.1 == 0 then ((HStatus.notFound, 0), r.2)
  else ((HStatus.ok, r.1), r.2)

/-- api.go `handleCreateAccount`: rejects empty names with 400, otherwise
builds NewAccount and inserts it via the store. -/
def handleCreateAccount (db : List Account) (req : CreateAccountRequest)
    (number : Int) (now : Int) (newId : Int) :
    (HStatus × Int) × List Account :=
  if req.firstName == "" || req.lastName == "" then
    ((HStatus.badRequest, 0), db)
  else
    let account := NewAccount req.firstName req.lastName number now
    let r := CreateAccount db account newId
    ((HStatus.created, r.1), r.2)

/-- Example account with number 100 and balance 50 (the scenario of the
specification's testable-properties section). -/
def acctA : Account :=
  { id := 1, firstName := "Ana", lastName := "Lee", number := 100, balance := 50
    createdAt := 0, updatedAt := 0 }

/-- Example account with number 200 and balance 10. -/
def acctB : Account :=
  { id := 2, firstName := "Bob", lastName := "Roy", number := 200, balance := 10
    createdAt := 0, updatedAt := 0 }

/-- Example table holding accounts 100 and 200. -/
def exDb : List Account := [acctA, acctB]

/-- Example account with number 5 and balance 10. -/
def acctP : Account :=
  { id := 3, firstName := "Pia", lastName := "Nor", number := 5, balance := 10
    createdAt := 0, updatedAt := 0 }

/-- Example account with number 3 and balance 0. -/
def acctQ : Account :=
  { id := 4, firstName := "Quin", lastName := "Orr", number := 3, balance := 0
    createdAt := 0, updatedAt := 0 }

/-- Example table whose account numbers (5, then 3) descend. -/
def exDbPQ : List Account := [acctP, acctQ]

/-- Example account with number 7 and balance 10. -/
def acctS : Account :=
  { id := 5, firstName := "Sol", lastName := "Ume", number := 7, balance := 10
    createdAt := 0, updatedAt := 0 }

/-- Example table holding only account number 7. -/
def exDbS : List Account := [acctS]

/-- A minimal account row with the given id, for bulk examples. -/
def mkAcct (i : Int) : Account :=
  { id := i, firstName := "F", lastName := "L", number := 1000 + i, balance := 0
    createdAt := 0, updatedAt := 0 }

/-- An example table of eleven accounts, ids 1 through 11 ascending. -/
def elevenDb : List Account :=
  [mkAcct 1, mkAcct 2, mkAcct 3, mkAcct 4, mkAcct 5, mkAcct 6, mkAcct 7,
   mkAcct 8, mkAcct 9, mkAcct 10, mkAcct 11]

/-- A row transformation that preserves the number column commutes with
SELECT-by-number over the table. -/
theorem find?_map_number (f : Account → Account)
    (hf : ∀ a, (f a).number = a.number) (n : Int) (l : List Account) :
    (l.map f).find? (fun a => a.number == n)
      = Option.map f (l.find? (fun a => a.number == n)) := by
  induction l with
  | nil => rfl
  | cons a t ih =>
    simp only [List.map_cons, List.find?_cons, hf]
    cases hp : a.number == n
    · simpa [hp] using ih
    · simp [hp]

/-- A row transformation that preserves the id column commutes with
SELECT-by-id over the table. -/
theorem find?_map_id (f : Account → Account)
    (hf : ∀ a, (f a).id = a.id) (i : Int) (l : List Account) :
    (l.map f).find? (fun a => a.id == i)
      = Option.map f (l.find? (fun a => a.id == i)) := by
  induction l with
  | nil => rfl
  | cons a t ih =>
    simp only [List.map_cons, List.find?_cons, hf]
    cases hp : a.id == i
    · simpa [hp] using ih
    · simp [hp]

/-- Reading a row by number commutes with a balance update: the row found
after updateBalanceByNumber is the row found before, with the update
applied when its number matches. -/
theorem find?_updateBalanceByNumber (l : List Account) (m : Int) (b : Rat)
    (t n : Int) :
    (updateBalanceByNumber l m b t).find? (fun a => a.number == n)
      = Option.map
          (fun a => if a.number == m then { a with balance := b, updatedAt := t } else a)
          (l.find? (fun a => a.number == n)) := by
  unfold updateBalanceByNumber
  exact find?_map_number _ (fun a => by by_cases h : a.number == m <;> simp [h]) n l

/-- Inversion of a successful TransferMoney run: both rows were found, the
source balance covered the amount, and the resulting table is the source
table with the two balance writes applied in order. -/
theorem transferMoney_ok_inv
    (db : List Account) (fromNo toNo : Int) (amount : Rat) (now : Int)
    (db2 : List Account) (trace : List Int)
    (hok : TransferMoney db fromNo toNo amount now = (none, db2, trace)) :
    ∃ fa ta, db.find? (fun a => a.number == fromNo) = some fa
      ∧ db.find? (fun a => a.number == toNo) = some ta
      ∧ ¬ fa.balance < amount
      ∧ db2 = updateBalanceByNumber
          (updateBalanceByNumber db fromNo (fa.balance - amount) now)
          toNo (ta.balance + amount) now := by
  unfold TransferMoney at hok
  cases h1 : db.find? (fun a => a.number == fromNo) with
  | none =>
    rw [h1] at hok
    simp at hok
  | some fa =>
    rw [h1] at hok
    by_cases h2 : fa.balance < amount
    · simp [h2] at hok
    · cases h3 : db.find? (fun a => a.number == toNo) with
      | none =>
        rw [h3] at hok
        simp [h2] at hok
      | some ta =>
        rw [h3] at hok
        simp only [h2, if_false, Prod.mk.injEq] at hok
        exact ⟨fa, ta, rfl, rfl, h2, hok.2.1.symm⟩

/-- Inversion of a failed TransferMoney run: every error branch leaves the
table exactly as it was (the transaction rolls back). -/
theorem transferMoney_err_inv
    (db : List Account) (fromNo toNo : Int) (amount : Rat) (now : Int)
    (e : StoreErr) (db2 : List Account) (trace : List Int)
    (herr : TransferMoney db fromNo toNo amount now = (some e, db2, trace)) :
    db2 = db := by
  unfold TransferMoney at herr
  cases h1 : db.find? (fun a => a.number == fromNo) with
  | none =>
    rw [h1] at herr
    simp at herr
    exact herr.2.1.symm
  | some fa =>
    rw [h1] at herr
    by_cases h2 : fa.balance < amount
    · simp [h2] at herr
      exact herr.2.1.symm
    · cases h3 : db.find? (fun a => a.number == toNo) with
      | none =>
        rw [h3] at herr
        simp [h2] at herr
        exact herr.2.1.symm
      | some ta =>
        rw [h3] at herr
        simp [h2] at herr

/-- C2: when the source row exists and its balance is below the requested
amount, TransferMoney fails with the insufficient-funds error and the
table is returned unchanged (the transaction rolls back, so neither
balance is mutated); only the source row was locked. -/
theorem transferMoney_insufficientFunds
    (db : List Account) (fromNo toNo : Int) (amount : Rat) (now : Int)
    (fa : Account)
    (hfind : db.find? (fun a => a.number == fromNo) = some fa)
    (hlt : fa.balance < amount) :
    TransferMoney db fromNo toNo amount now
      = (some StoreErr.insufficientFunds, db, [fromNo]) := by
  unfold TransferMoney
  rw [hfind]
  simp [hlt]

/-- Witness for C2: transferring 60 out of account 100 (balance 50) fails
with insufficient funds and leaves the example table unchanged. -/
theorem transferMoney_insufficientFunds_witness :
    TransferMoney exDb 100 200 60 1
      = (some StoreErr.insufficientFunds, exDb, [100]) :=
  transferMoney_insufficientFunds exDb 100 200 60 1 acctA (by decide) (by decide)

/-- C4: TransferMoney aborts with the not-found error and an unchanged
table when the source row is missing, and likewise when the source exists
with sufficient balance but the destination row is missing. -/
theorem transferMoney_notFound
    (db : List Account) (fromNo toNo : Int) (amount : Rat) (now : Int) :
    (db.find? (fun a => a.number == fromNo) = none →
      TransferMoney db fromNo toNo amount now
        = (some StoreErr.notFound, db, [fromNo]))
    ∧ (∀ fa, db.find? (fun a => a.number == fromNo) = some fa →
        ¬ fa.balance < amount →
        db.find? (fun a => a.number == toNo) = none →
        TransferMoney db fromNo toNo amount now
          = (some StoreErr.notFound, db, [fromNo, toNo])) := by
  constructor
  · intro h
    unfold TransferMoney
    rw [h]
  · intro fa h1 h2 h3
    unfold TransferMoney
    rw [h1]
    simp [h2, h3]

/-- Witness for C4: a missing source (999) and a missing destination both
produce the not-found error with the example table unchanged. -/
theorem transferMoney_notFound_witness :
    TransferMoney exDb 999 100 5 1 = (some StoreErr.notFound, exDb, [999])
    ∧ TransferMoney exDb 100 999 5 1 = (some StoreErr.notFound, exDb, [100, 999]) :=
  ⟨(transferMoney_notFound exDb 999 100 5 1).1 (by decide),
   (transferMoney_notFound exDb 100 999 5 1).2 acctA (by decide) (by decide) (by decide)⟩

/-- C10: the insufficient-funds check runs before the destination row is
read or locked: with an under-funded source the call fails with the
insufficient-funds error for every destination number, existing or not,
and the lock trace is exactly the source number, so a distinct
destination number is never read or locked. -/
theorem transferMoney_check_before_dest_lock
    (db : List Account) (fromNo toNo : Int) (amount : Rat) (now : Int)
    (fa : Account)
    (hfind : db.find? (fun a => a.number == fromNo) = some fa)
    (hlt : fa.balance < amount) :
    (TransferMoney db fromNo toNo amount now).1 = some StoreErr.insufficientFunds
    ∧ (TransferMoney db fromNo toNo amount now).2.2 = [fromNo]
    ∧ (toNo ≠ fromNo → toNo ∉ (TransferMoney db fromNo toNo amount now).2.2) := by
  have h : TransferMoney db fromNo toNo amount now
      = (some StoreErr.insufficientFunds, db, [fromNo]) := by
    unfold TransferMoney
    rw [hfind]
    simp [hlt]
  rw [h]
  refine ⟨rfl, rfl, ?_⟩
  intro hne
  simp [hne]

/-- Witness for C10: transferring 60 out of account 7 (balance 10) toward
the nonexistent account 777 fails with insufficient funds and account 777
is never locked. -/
theorem transferMoney_check_before_dest_lock_witness :
    (TransferMoney exDbS 7 777 60 1).1 = some StoreErr.insufficientFunds
    ∧ (777 : Int) ∉ (TransferMoney exDbS 7 777 60 1).2.2 :=
  let h := transferMoney_check_before_dest_lock exDbS 7 777 60 1 acctS (by decide) (by decide)
  ⟨h.1, h.2.2 (by decide)⟩

/-- C6 counterexample: a transfer from account number 5 to account number
3 locks row 5 first and then row 3 — the execution locks the rows in
from-then-to order, which here is descending account number, not
ascending. -/
theorem transferMoney_lock_order_cx :
    (TransferMoney exDbPQ 5 3 2 1).2.2 = [5, 3] ∧ ¬ (5 : Int) ≤ 3 := by
  decide

/-- C6 amended: TransferMoney always issues its FOR UPDATE reads in the
fixed order source row first, destination row second: the lock trace of
every execution is [fromAccountNo] or [fromAccountNo, toAccountNo],
never reordered by account number. -/
theorem transferMoney_locks_from_first
    (db : List Account) (fromNo toNo : Int) (amount : Rat) (now : Int) :
    (TransferMoney db fromNo toNo amount now).2.2 = [fromNo]
    ∨ (TransferMoney db fromNo toNo amount now).2.2 = [fromNo, toNo] := by
  unfold TransferMoney
  cases h1 : db.find? (fun a => a.number == fromNo) with
  | none => exact Or.inl rfl
  | some fa =>
    by_cases h2 : fa.balance < amount
    · simp [h2]
    · cases h3 : db.find? (fun a => a.number == toNo) with
      | none => simp [h2, h3]
      | some ta => simp [h2, h3]

/-- C3 counterexample: the store layer itself performs no precondition
validation: a self-transfer (fromAccountNo = toAccountNo = 7, amount 5,
balance 10) succeeds without error and raises the balance to 15, and a
zero-amount transfer between the example accounts also succeeds. -/
theorem transferMoney_no_store_validation_cx :
    (TransferMoney exDbS 7 7 5 1).1 = none
    ∧ balanceOf (TransferMoney exDbS 7 7 5 1).2.1 7 = 15
    ∧ (TransferMoney exDb 100 200 0 1).1 = none := by
  norm_num [TransferMoney, exDbS, acctS, exDb, acctA, acctB, balanceOf,
    updateBalanceByNumber, List.find?]
  decide

/-- C3 amended: the rejection of amount ≤ 0 and of fromNumber = toNumber
happens only in the Handler, not in the Store: handleTransfer answers 400
and leaves the table untouched on every such request, without invoking
the store operation. -/
theorem handleTransfer_rejects_invalid
    (db : List Account) (req : TransferRequest) (now : Int) :
    (req.fromAccountNo = req.toAccountNo →
      handleTransfer db req now
        = ((HStatus.badRequest, "cannot transfer to the same account"), db))
    ∧ (req.fromAccountNo ≠ req.toAccountNo → req.amount ≤ 0 →
      handleTransfer db req now
        = ((HStatus.badRequest, "amount must be greater than zero"), db)) := by
  constructor
  · intro h
    unfold handleTransfer
    rw [if_pos (by simp [h])]
  · intro h1 h2
    unfold handleTransfer
    rw [if_neg (by simp [h1]), if_pos h2]

/-- Witness for the amended C3: a self-transfer request and a
negative-amount request both come back as 400 with the table unchanged. -/
theorem handleTransfer_rejects_invalid_witness :
    handleTransfer exDb { fromAccountNo := 100, toAccountNo := 100, amount := 5 } 1
      = ((HStatus.badRequest, "cannot transfer to the same account"), exDb)
    ∧ handleTransfer exDb { fromAccountNo := 100, toAccountNo := 200, amount := -3 } 1
      = ((HStatus.badRequest, "amount must be greater than zero"), exDb) :=
  ⟨(handleTransfer_rejects_invalid exDb
      { fromAccountNo := 100, toAccountNo := 100, amount := 5 } 1).1 rfl,
   (handleTransfer_rejects_invalid exDb
      { fromAccountNo := 100, toAccountNo := 200, amount := -3 } 1).2
      (by decide) (by decide)⟩

/-- C1: a successful TransferMoney between two distinct account numbers
conserves money: the source balance drops by exactly the amount, the
destination balance rises by exactly the amount, their sum is unchanged,
and the balance observed for every other account number is unchanged.
(Distinctness of the two numbers is the transfer precondition the spec
states and the Handler enforces before invoking the store.) -/
theorem transferMoney_conservation
    (db : List Account) (fromNo toNo : Int) (amount : Rat) (now : Int)
    (db2 : List Account) (trace : List Int)
    (hne : fromNo ≠ toNo)
    (hok : TransferMoney db fromNo toNo amount now = (none, db2, trace)) :
    balanceOf db2 fromNo = balanceOf db fromNo - amount
    ∧ balanceOf db2 toNo = balanceOf db toNo + amount
    ∧ balanceOf db2 fromNo + balanceOf db2 toNo
        = balanceOf db fromNo + balanceOf db toNo
    ∧ ∀ n, n ≠ fromNo → n ≠ toNo → balanceOf db2 n = balanceOf db n := by
  obtain ⟨fa, ta, h1, h3, hge, hdb⟩ :=
    transferMoney_ok_inv db fromNo toNo amount now db2 trace hok
  subst hdb
  have hfanum : fa.number = fromNo := by simpa using List.find?_some h1
  have htanum : ta.number = toNo := by simpa using List.find?_some h3
  have ebdf : balanceOf db fromNo = fa.balance := by
    unfold balanceOf
    rw [h1]
  have ebdt : balanceOf db toNo = ta.balance := by
    unfold balanceOf
    rw [h3]
  have e1 : balanceOf
      (updateBalanceByNumber (updateBalanceByNumber db fromNo (fa.balance - amount) now)
        toNo (ta.balance + amount) now) fromNo = fa.balance - amount := by
    unfold balanceOf
    rw [find?_updateBalanceByNumber, find?_updateBalanceByNumber, h1]
    simp [hfanum, hne]
  have e2 : balanceOf
      (updateBalanceByNumber (updateBalanceByNumber db fromNo (fa.balance - amount) now)
        toNo (ta.balance + amount) now) toNo = ta.balance + amount := by
    unfold balanceOf
    rw [find?_updateBalanceByNumber, find?_updateBalanceByNumber, h3]
    simp [htanum, Ne.symm hne]
  refine ⟨?_, ?_, ?_, ?_⟩
  · rw [e1, ebdf]
  · rw [e2, ebdt]
  · rw [e1, e2, ebdf, ebdt]
    ring
  · intro n hnf hnt
    unfold balanceOf
    rw [find?_updateBalanceByNumber, find?_updateBalanceByNumber]
    cases hn : db.find? (fun a => a.number == n) with
    | none => simp
    | some a =>
      have hanum : a.number = n := by simpa using List.find?_some hn
      simp [hanum, hnf, hnt]

/-- Witness for C1: the spec scenario — transferring 30 from account 100
(balance 50) to account 200 (balance 10) yields balances 20 and 40, the
sum 60 is conserved, and other numbers are untouched. -/
theorem transferMoney_conservation_witness :
    balanceOf (TransferMoney exDb 100 200 30 1).2.1 100
        = balanceOf exDb 100 - 30
    ∧ balanceOf (TransferMoney exDb 100 200 30 1).2.1 200
        = balanceOf exDb 200 + 30
    ∧ balanceOf (TransferMoney exDb 100 200 30 1).2.1 100
          + balanceOf (TransferMoney exDb 100 200 30 1).2.1 200
        = balanceOf exDb 100 + balanceOf exDb 200
    ∧ balanceOf (TransferMoney exDb 100 200 30 1).2.1 999 = balanceOf exDb 999 := by
  have h1 : (TransferMoney exDb 100 200 30 1).1 = none := by decide
  have hok : TransferMoney exDb 100 200 30 1
      = (none, (TransferMoney exDb 100 200 30 1).2.1,
          (TransferMoney exDb 100 200 30 1).2.2) := by
    rw [← h1]
  have h := transferMoney_conservation exDb 100 200 30 1
    (TransferMoney exDb 100 200 30 1).2.1 (TransferMoney exDb 100 200 30 1).2.2
    (by decide) hok
  exact ⟨h.1, h.2.1, h.2.2.1, h.2.2.2 999 (by decide) (by decide)⟩

/-- Writing one non-negative balance into every row matching a condition
keeps the whole table non-negative. -/
theorem nonneg_map_cond (db : List Account) (p : Account → Bool) (b : Rat)
    (t : Int) (hb : 0 ≤ b) (hnn : NonNeg db) :
    NonNeg (db.map (fun a =>
      if p a then { a with balance := b, updatedAt := t } else a)) := by
  intro x hx
  rcases List.mem_map.mp hx with ⟨a, ha, rfl⟩
  by_cases h : p a
  · simp only [h, if_true]
    exact hb
  · simp only [h, if_false]
    exact hnn a ha

/-- C5: balance non-negativity is an invariant of the service: a fresh
account has balance 0, and account creation, the balance update and the
transfer, as exposed through the Handler, each carry a table of
non-negative balances to a table of non-negative balances. -/
theorem balances_nonneg_preserved
    (firstName lastName : String) (number now newId id : Int)
    (db : List Account) (creq : CreateAccountRequest)
    (ureq : UpdateAccountBalanceRequest) (treq : TransferRequest) :
    (NewAccount firstName lastName number now).balance = 0
    ∧ (NonNeg db → NonNeg (handleCreateAccount db creq number now newId).2)
    ∧ (NonNeg db → NonNeg (handleUpdateAccountBalance db id ureq now).2)
    ∧ (NonNeg db → NonNeg (handleTransfer db treq now).2) := by
  refine ⟨rfl, ?_, ?_, ?_⟩
  · intro hnn
    unfold handleCreateAccount
    by_cases h : creq.firstName == "" || creq.lastName == ""
    · simp only [h, if_true]
      exact hnn
    · simp only [h, if_false]
      intro a ha
      rcases List.mem_append.mp ha with h1 | h2
      · exact hnn a h1
      · simp only [List.mem_singleton] at h2
        subst h2
        exact le_of_eq rfl
  · intro hnn
    unfold handleUpdateAccountBalance
    by_cases h1 : ureq.balance < 0
    · simp only [h1, if_true]
      exact hnn
    · simp only [h1, if_false]
      by_cases h2 : ureq.number ≤ 0
      · simp only [h2, if_true]
        exact hnn
      · simp only [h2, if_false]
        cases hg : GetAccountByID db id with
        | none => exact hnn
        | some acc =>
          unfold UpdateAccountBalance
          by_cases h3 : db.any (fun a => a.id == id && a.number == ureq.number)
          · simp only [h3, if_true]
            by_cases h4 : id == 0
            · simp only [h4, if_true]
              exact nonneg_map_cond db _ ureq.balance now (not_lt.mp h1) hnn
            · simp only [h4, if_false]
              exact nonneg_map_cond db _ ureq.balance now (not_lt.mp h1) hnn
          · simp only [h3, if_false]
            exact hnn
  · intro hnn
    unfold handleTransfer
    by_cases h1 : treq.fromAccountNo == treq.toAccountNo
    · simp only [h1, if_true]
      exact hnn
    · simp only [h1, if_false]
      by_cases h2 : treq.amount ≤ 0
      · simp only [h2, if_true]
        exact hnn
      · simp only [h2, if_false]
        rcases htm : TransferMoney db treq.fromAccountNo treq.toAccountNo treq.amount now
          with ⟨err, db2, tr⟩
        cases err with
        | some e =>
          show NonNeg db2
          have hdb : db2 = db :=
            transferMoney_err_inv db treq.fromAccountNo treq.toAccountNo treq.amount now
              e db2 tr htm
          subst hdb
          exact hnn
        | none =>
          show NonNeg db2
          obtain ⟨fa, ta, hf, ht, hge, hdb⟩ :=
            transferMoney_ok_inv db treq.fromAccountNo treq.toAccountNo treq.amount now
              db2 tr htm
          subst hdb
          have hamt : 0 < treq.amount := lt_of_not_le h2
          unfold updateBalanceByNumber
          refine nonneg_map_cond _ _ _ now
            (add_nonneg (hnn ta (List.mem_of_find?_eq_some ht)) hamt.le) ?_
          exact nonneg_map_cond db _ _ now
            (sub_nonneg.mpr (not_lt.mp hge)) hnn

/-- Witness for C5: the example table is non-negative, and so is the
table after a transfer of 30 from account 100 to account 200. -/
theorem balances_nonneg_preserved_witness :
    NonNeg exDb
    ∧ NonNeg (handleTransfer exDb
        { fromAccountNo := 100, toAccountNo := 200, amount := 30 } 2).2 :=
  ⟨by decide,
   (balances_nonneg_preserved "Ana" "Lee" 7 2 9 1 exDb
      { firstName := "Ana", lastName := "Lee" }
      { balance := 5, number := 100 }
      { fromAccountNo := 100, toAccountNo := 200, amount := 30 }).2.2.2 (by decide)⟩

/-- C7: the balance-update operation as served by PUT /account/:id: a
negative requested balance is rejected with 400 before any store call and
the table is unchanged; a valid call (non-negative balance, positive
account number, the account exists and its stored number matches) answers
200 and the stored row afterwards carries the new balance and the
refreshed updatedAt.  (The nonzero-id hypothesis reflects the SERIAL
primary key, which starts at 1.) -/
theorem handleUpdateAccountBalance_spec
    (db : List Account) (id : Int) (req : UpdateAccountBalanceRequest)
    (now : Int) :
    (req.balance < 0 →
      handleUpdateAccountBalance db id req now
        = ((HStatus.badRequest, "balance cannot be negative"), db))
    ∧ (¬ req.balance < 0 → 0 < req.number → id ≠ 0 →
        ∀ acc, GetAccountByID db id = some acc → acc.number = req.number →
          (handleUpdateAccountBalance db id req now).1.1 = HStatus.ok
          ∧ GetAccountByID (handleUpdateAccountBalance db id req now).2 id
              = some { acc with balance := req.balance, updatedAt := now }) := by
  constructor
  · intro h
    unfold handleUpdateAccountBalance
    rw [if_pos h]
  · intro hb hn hid acc hacc hnum
    have haccf : db.find? (fun a => a.id == id) = some acc := hacc
    have haid : (acc.id == id) = true := by
      have h := List.find?_some haccf
      simpa using h
    have hany : db.any (fun a => a.id == id && a.number == req.number) = true :=
      List.any_eq_true.mpr
        ⟨acc, List.mem_of_find?_eq_some haccf, by simp [haid, hnum]⟩
    have hmap : handleUpdateAccountBalance db id req now
        = ((HStatus.ok, "updated"),
           db.map (fun a =>
             if a.id == id && a.number == req.number then
               { a with balance := req.balance, updatedAt := now }
             else a)) := by
      unfold handleUpdateAccountBalance
      rw [if_neg hb, if_neg (by simpa using not_le.mpr hn), hacc]
      unfold UpdateAccountBalance
      simp only [hany, if_true]
      simp [beq_eq_false_iff_ne.mpr hid]
    rw [hmap]
    refine ⟨rfl, ?_⟩
    unfold GetAccountByID
    rw [find?_map_id _ ?_ id db]
    · rw [haccf]
      have haid2 : acc.id = id := by simpa using haid
      simp [haid2, hnum]
    · intro a
      by_cases h : a.id == id && a.number == req.number <;> simp [h]

/-- Witness for C7: on the example table, updating account id 1 to
balance -5 answers 400 with nothing changed, and updating it to balance
25 answers 200 and stores balance 25 with updatedAt 9. -/
theorem handleUpdateAccountBalance_spec_witness :
    handleUpdateAccountBalance exDb 1 { balance := -5, number := 100 } 9
      = ((HStatus.badRequest, "balance cannot be negative"), exDb)
    ∧ (handleUpdateAccountBalance exDb 1 { balance := 25, number := 100 } 9).1.1
        = HStatus.ok
    ∧ GetAccountByID
        (handleUpdateAccountBalance exDb 1 { balance := 25, number := 100 } 9).2 1
        = some { acctA with balance := 25, updatedAt := 9 } := by
  have h2 := (handleUpdateAccountBalance_spec exDb 1
      { balance := 25, number := 100 } 9).2
    (by decide) (by decide) (by decide) acctA (by decide) (by decide)
  exact ⟨(handleUpdateAccountBalance_spec exDb 1
      { balance := -5, number := 100 } 9).1 (by decide), h2.1, h2.2⟩

/-- C8: deleting an id with no matching row answers 404 with the table
unchanged; deleting an existing (nonzero) id answers 200 with that id and
removes the row, so a second delete of the same id answers 404. -/
theorem handleDeleteAccount_spec (db : List Account) (id : Int) :
    ((∀ a ∈ db, a.id ≠ id) →
      handleDeleteAccount db id = ((HStatus.notFound, 0), db))
    ∧ (id ≠ 0 → (∃ a ∈ db, a.id = id) →
        (handleDeleteAccount db id).1 = (HStatus.ok, id)
        ∧ (∀ a ∈ (handleDeleteAccount db id).2, a.id ≠ id)
        ∧ (handleDeleteAccount (handleDeleteAccount db id).2 id).1.1
            = HStatus.notFound) := by
  constructor
  · intro h
    unfold handleDeleteAccount DeleteAccount
    have hany : db.any (fun a => a.id == id) = false := by
      rw [List.any_eq_false]
      intro a ha
      simp [h a ha]
    simp [hany]
  · intro hid hex
    have hany : db.any (fun a => a.id == id) = true :=
      List.any_eq_true.mpr (by
        obtain ⟨a, ha, he⟩ := hex
        exact ⟨a, ha, by simp [he]⟩)
    have hdel : handleDeleteAccount db id
        = ((HStatus.ok, id), db.filter (fun a => !(a.id == id))) := by
      unfold handleDeleteAccount DeleteAccount
      simp [hany, beq_eq_false_iff_ne.mpr hid]
    rw [hdel]
    refine ⟨rfl, ?_, ?_⟩
    · intro a ha
      have hfa := (List.mem_filter.mp ha).2
      simpa using hfa
    · unfold handleDeleteAccount DeleteAccount
      have hany2 : (db.filter (fun a => !(a.id == id))).any (fun a => a.id == id)
          = false := by
        rw [List.any_eq_false]
        intro a ha
        have hfa := (List.mem_filter.mp ha).2
        simpa using hfa
      simp [hany2]

/-- Witness for C8: deleting account id 1 from the example table answers
200 with id 1, and deleting it again answers 404. -/
theorem handleDeleteAccount_spec_witness :
    (handleDeleteAccount exDb 1).1 = (HStatus.ok, 1)
    ∧ (handleDeleteAccount (handleDeleteAccount exDb 1).2 1).1.1
        = HStatus.notFound := by
  have h := (handleDeleteAccount_spec exDb 1).2 (by decide)
    ⟨acctA, by decide, by decide⟩
  exact ⟨h.1, h.2.2⟩

/-- C9 (code bug): GetAccounts orders the rows ascending by id but
applies no limit: on the eleven-row example table it returns all eleven
rows, exceeding the ten-row bound that the handler's own doc comment
claims ("Limited to 10 accounts for simplicity"). -/
theorem getAccounts_no_limit :
    GetAccounts elevenDb = elevenDb
    ∧ (GetAccounts elevenDb).length = 11
    ∧ 10 < (GetAccounts elevenDb).length := by
  decide
